import Mathlib

/-!
# Verification of the libARStream sender core (`ARSTREAM_Sender.c`)

This file gives a shallow embedding, in Lean 4, of the control-plane state and
operations of the stream sender implemented in `Sources/ARSTREAM_Sender.c`:

* the bounded ring queue of pending frames (`ARSTREAM_Sender_FlushQueue`,
  `ARSTREAM_Sender_AddToQueue`, `ARSTREAM_Sender_PopFromQueue`);
* the public submission entry point (`ARSTREAM_Sender_SendNewFrame`);
* the fragmentation computation of the transmit loop;
* the ack-merging step of the ack loop and the frame-replacement step of the
  transmit loop, both of which run under the sender's `ackMutex` and are
  therefore modelled as atomic steps of a state machine;
* the efficiency metric (`ARSTREAM_Sender_GetEstimatedEfficiency`).

C machine integers are modelled as `Nat` (with explicit `% 2^32` or `% 2^16`
where the C type wraps) or `Int` where the C variable is a signed `int`.
Pointers only ever matter through null-ness and identity here, so a buffer
pointer is modelled as a `Nat` with `0` playing the role of `NULL`.
Application callbacks are modelled as emitted events.

The bit-twiddling helpers on ack packets live in `ARSTREAM_NetworkHeaders.c`,
which is not part of this repository snapshot; those are modelled from the
specification (each such definition says so in its doc comment).
-/

namespace ARStream

/-- The value `2^32`; arithmetic on the C `uint32_t` fields wraps modulo this. -/
def UINT32_MOD : Nat := 4294967296

/-- The value `2^16`; arithmetic on the C `uint16_t` fields wraps modulo this. -/
def UINT16_MOD : Nat := 65536

/-- Status passed to the application frame-update callback
(`eARSTREAM_SENDER_STATUS` values used by the sender). -/
inductive CbStatus where
  | frameSent
  | frameCancel
deriving DecidableEq, Repr

/-- One invocation of the application callback, recorded as an event:
the status together with the `frameBuffer` / `frameSize` arguments. -/
structure CbEvent where
  status : CbStatus
  buffer : Nat
  size : Nat
deriving DecidableEq, Repr

/-- `ARSTREAM_Sender_Frame_t`: one frame descriptor.  `frameNumber` and
`frameSize` are C `uint32_t`; `frameBuffer` is a pointer (here: `Nat`, `0` is
`NULL`); `isHighPriority` is a C `int`. -/
structure Frame where
  frameNumber : Nat
  frameSize : Nat
  frameBuffer : Nat
  isHighPriority : Int
deriving DecidableEq, Repr

instance : Inhabited Frame := ⟨⟨0, 0, 0, 0⟩⟩

/-- The fields of `ARSTREAM_Sender_t` touched by the next-frame queue
operations (all accessed under `nextFrameMutex` in the C code, plus the
`currentFrameCbWasCalled` flag which those operations read).  The ring array
`nextFrames` (of C length `maxNumberOfNextFrames`) is modelled as a total
function from indices; the code only ever reads indices `< maxNumberOfNextFrames`. -/
structure SenderState where
  maxNumberOfNextFrames : Nat
  nextFrameNumber : Nat
  indexAddNextFrame : Nat
  indexGetNextFrame : Nat
  numberOfWaitingFrames : Nat
  nextFrames : Nat → Frame
  currentFrameCbWasCalled : Bool

/-- One iteration body of the `while (numberOfWaitingFrames > 0)` loop of
`ARSTREAM_Sender_FlushQueue` (lines 211–218): emit a `FRAME_CANCEL` callback
for the head frame, advance `indexGetNextFrame` modulo the ring size and
decrement `numberOfWaitingFrames`.  `fuel` bounds the iteration count; the
loop decreases `numberOfWaitingFrames` by one each pass, so running it with
`fuel = numberOfWaitingFrames` reproduces the loop exactly. -/
def flushLoop : Nat → SenderState → SenderState × List CbEvent
  | 0, s => (s, [])
  | fuel + 1, s =>
    if 0 < s.numberOfWaitingFrames then
      let f := s.nextFrames s.indexGetNextFrame
      let ev : CbEvent := ⟨CbStatus.frameCancel, f.frameBuffer, f.frameSize⟩
      let s' : SenderState :=
        { s with indexGetNextFrame := (s.indexGetNextFrame + 1) % s.maxNumberOfNextFrames,
                 numberOfWaitingFrames := s.numberOfWaitingFrames - 1 }
      let r := flushLoop fuel s'
      (r.1, ev :: r.2)
    else
      (s, [])

/-- `ARSTREAM_Sender_FlushQueue` (lines 209–219): cancel every waiting frame,
head first.  Returns the new state and the emitted callback events in order. -/
def ARSTREAM_Sender_FlushQueue (s : SenderState) : SenderState × List CbEvent :=
  flushLoop s.numberOfWaitingFrames s

/-- Result of `ARSTREAM_Sender_AddToQueue`: the state after the call, the C
`int` return value, the callback events emitted (by the flush, if any), and
whether `nextFrameCond` was signalled. -/
structure AddToQueueResult where
  state : SenderState
  retVal : Int
  cancelled : List CbEvent
  signaled : Bool

/-- `ARSTREAM_Sender_AddToQueue` (lines 221–256).  The return value is
computed from the pre-flush state; the flush runs only when
`wasFlushFrame == 1`; the capacity test uses the post-flush waiting count;
on success the frame is stamped with the incremented `nextFrameNumber`
(`uint32_t`, hence `% 2^32`), written at `indexAddNextFrame`, and the indices
and count are updated, then the condition variable is signalled. -/
def ARSTREAM_Sender_AddToQueue (s : SenderState) (size : Nat) (buffer : Nat)
    (wasFlushFrame : Int) : AddToQueueResult :=
  let retVal : Int :=
    (s.numberOfWaitingFrames : Int) + (if s.currentFrameCbWasCalled then 0 else 1)
  let fl := if wasFlushFrame = 1 then ARSTREAM_Sender_FlushQueue s else (s, [])
  let s1 := fl.1
  if s1.numberOfWaitingFrames < s1.maxNumberOfNextFrames then
    let newNumber := (s1.nextFrameNumber + 1) % UINT32_MOD
    let newFrame : Frame := ⟨newNumber, size, buffer, wasFlushFrame⟩
    let s2 : SenderState :=
      { s1 with
        nextFrameNumber := newNumber,
        nextFrames := fun i => if i = s1.indexAddNextFrame then newFrame else s1.nextFrames i,
        indexAddNextFrame := (s1.indexAddNextFrame + 1) % s1.maxNumberOfNextFrames,
        numberOfWaitingFrames := s1.numberOfWaitingFrames + 1 }
    ⟨s2, retVal, fl.2, true⟩
  else
    ⟨s1, -1, fl.2, false⟩

/-- The head-readiness test of `ARSTREAM_Sender_PopFromQueue`
(lines 264–272 and 309–317, identical): a frame is handed out iff the queue
is non-empty and (the head is high priority, or the current frame's terminal
callback was already called). -/
def popReady (s : SenderState) : Bool :=
  decide (0 < s.numberOfWaitingFrames) &&
    (decide ((s.nextFrames s.indexGetNextFrame).isHighPriority = 1) ||
     s.currentFrameCbWasCalled)

/-- The state change of a successful pop (lines 276 and 327–336): decrement
the waiting count, read the head frame, advance `indexGetNextFrame` modulo
the ring size.  Returns the new state and the copied-out frame. -/
def popConsume (s : SenderState) : SenderState × Frame :=
  let f := s.nextFrames s.indexGetNextFrame
  ({ s with numberOfWaitingFrames := s.numberOfWaitingFrames - 1,
            indexGetNextFrame := (s.indexGetNextFrame + 1) % s.maxNumberOfNextFrames }, f)

/-- The timed-wait loop of `ARSTREAM_Sender_PopFromQueue` (lines 298–324).
Each element of `wakes` is one wake-up from `ARSAL_Cond_Timedwait`: the
sender state as observed at that wake-up (other threads may have changed it)
together with whether the wait returned `ETIMEDOUT`.  The C loop first
records a timeout, then re-tests readiness (so a frame can still be consumed
on the timed-out wake-up), and exits when it consumed a frame or timed out. -/
def popLoop : List (SenderState × Bool) → SenderState → SenderState × Option Frame
  | [], s => (s, none)
  | (w, timedOut) :: rest, _ =>
    if popReady w then
      let c := popConsume w
      (c.1, some c.2)
    else if timedOut then
      (w, none)
    else
      popLoop rest w

/-- `ARSTREAM_Sender_PopFromQueue` (lines 258–340): test readiness once, and
if the head is not ready enter the timed-wait loop.  Returns the state after
the call and `some frame` iff the C function returns `1`. -/
def ARSTREAM_Sender_PopFromQueue (s : SenderState) (wakes : List (SenderState × Bool)) :
    SenderState × Option Frame :=
  if popReady s then
    let c := popConsume s
    (c.1, some c.2)
  else
    popLoop wakes s

/-- `eARSTREAM_ERROR` values used by the sender entry points. -/
inductive ARStreamError where
  | ok
  | badParameters
  | frameTooLarge
  | queueFull
deriving DecidableEq, Repr

/-- Result of `ARSTREAM_Sender_SendNewFrame`: the returned error code, the
(possibly updated) sender state, the value written through `nbPreviousFrames`
(`none` when nothing was written), and the callback events emitted. -/
structure SendNewFrameResult where
  err : ARStreamError
  state : SenderState
  nbPreviousFramesOut : Option Int
  events : List CbEvent

/-- `ARSTREAM_Sender_SendNewFrame` (lines 613–645).  `maxFrameSize` stands for
the constant `ARSTREAM_NETWORK_HEADERS_MAX_FRAME_SIZE` (declared in the
`ARSTREAM_NetworkHeaders.h` header, outside this snapshot); `senderNull`
models `sender == NULL`; `frameBuffer = 0` models a `NULL` buffer;
`nbPreviousFramesNull` models `nbPreviousFrames == NULL`. -/
def ARSTREAM_Sender_SendNewFrame (maxFrameSize : Nat) (senderNull : Bool)
    (s : SenderState) (frameBuffer : Nat) (frameSize : Nat)
    (flushPreviousFrames : Int) (nbPreviousFramesNull : Bool) : SendNewFrameResult :=
  if senderNull = true ∨ frameBuffer = 0 ∨ frameSize = 0 ∨
      (flushPreviousFrames ≠ 0 ∧ flushPreviousFrames ≠ 1) then
    ⟨ARStreamError.badParameters, s, none, []⟩
  else if maxFrameSize < frameSize then
    ⟨ARStreamError.frameTooLarge, s, none, []⟩
  else
    let r := ARSTREAM_Sender_AddToQueue s frameSize frameBuffer flushPreviousFrames
    if r.retVal < 0 then
      ⟨ARStreamError.queueFull, r.state, none, r.cancelled⟩
    else if nbPreviousFramesNull then
      ⟨ARStreamError.ok, r.state, none, r.cancelled⟩
    else
      ⟨ARStreamError.ok, r.state, some r.retVal, r.cancelled⟩

/-- The fragmentation computation of the transmit loop (lines 733–744):
given the previous values of the thread-local variables `nbPackets`
(a `uint16_t`, hence `% 2^16`) and `lastFragmentSize`, the frame size
`sendSize` and the constant `ARSTREAM_NETWORK_HEADERS_FRAGMENT_SIZE`
(passed in as `fragmentSize`; its value lives in the missing
`ARSTREAM_NetworkHeaders.h`), return the new `(nbPackets, lastFragmentSize)`.
When `sendSize = 0` the C code leaves both variables unchanged. -/
def ARSTREAM_Sender_ComputeFragments (prevNbPackets prevLastFragmentSize : Nat)
    (sendSize fragmentSize : Nat) : Nat × Nat :=
  if 0 < sendSize then
    let nbPackets := (sendSize / fragmentSize) % UINT16_MOD
    if sendSize % fragmentSize ≠ 0 then
      ((nbPackets + 1) % UINT16_MOD, sendSize % fragmentSize)
    else
      (nbPackets, fragmentSize)
  else
    (prevNbPackets, prevLastFragmentSize)

/-- The per-fragment payload size of the send pass (line 769):
`(cnt == nbPackets - 1) ? lastFragmentSize : ARSTREAM_NETWORK_HEADERS_FRAGMENT_SIZE`. -/
def currFragmentSize (cnt nbPackets lastFragmentSize fragmentSize : Nat) : Nat :=
  if cnt = nbPackets - 1 then lastFragmentSize else fragmentSize

/-- `ARSTREAM_NetworkHeaders_AckPacket_t`: a 16-bit frame number and a 128-bit
acknowledge bitmap split into two 64-bit words (`high` holds bits 64..127,
`low` holds bits 0..63).  The struct is declared in the missing
`ARSTREAM_NetworkHeaders.h`; the field layout is taken from the spec. -/
structure AckPacket where
  frameNumber : Nat
  highPacketsAck : Nat
  lowPacketsAck : Nat
deriving DecidableEq, Repr

/-- Modelled from the spec: `ARSTREAM_NetworkHeaders_AckPacketFlagIsSet`
(implemented in `ARSTREAM_NetworkHeaders.c`, not in this snapshot) queries
bit `i` of the 128-bit bitmap: bit `i` of the low word for `i < 64`, bit
`i - 64` of the high word otherwise. -/
def ackPacketFlagIsSet (p : AckPacket) (i : Nat) : Bool :=
  if i < 64 then p.lowPacketsAck.testBit i else p.highPacketsAck.testBit (i - 64)

/-- Modelled from the spec: `ARSTREAM_NetworkHeaders_AckPacketSetFlags`
(implemented in `ARSTREAM_NetworkHeaders.c`, not in this snapshot) merges
another packet's bitmap into this one by bitwise OR of both words. -/
def ackPacketSetFlags (dst src : AckPacket) : AckPacket :=
  { dst with
    highPacketsAck := dst.highPacketsAck ||| src.highPacketsAck,
    lowPacketsAck := dst.lowPacketsAck ||| src.lowPacketsAck }

/-- Modelled from the spec: `ARSTREAM_NetworkHeaders_AckPacketAllFlagsSet`
(implemented in `ARSTREAM_NetworkHeaders.c`, not in this snapshot) is true
iff bits `0..n-1` of the bitmap are all set. -/
def ackPacketAllFlagsSet (p : AckPacket) (n : Nat) : Bool :=
  decide (∀ i < n, ackPacketFlagIsSet p i = true)

/-- The sender fields accessed under `ackMutex` by the ack loop and by the
new-frame branch of the transmit loop: the current-frame ack bitmap, the
one-shot terminal-callback flag, the current frame's fragment count and the
current frame descriptor (used as callback arguments). -/
structure AckState where
  ackPacket : AckPacket
  currentFrameCbWasCalled : Bool
  currentFrameNbFragments : Nat
  currentFrame : Frame

/-- The ack-application step of `ARSTREAM_Sender_RunAckThread`
(lines 826–837), one received (already endianness-converted) ack packet:
if the frame numbers differ the packet is ignored; otherwise the bitmap is
merged by OR, and when the callback was not yet called and all fragments of
the current frame are now acknowledged, `ARSTREAM_Sender_FrameWasAck`
(lines 394–401) fires the `FRAME_SENT` callback and sets the flag. -/
def processAck (s : AckState) (recv : AckPacket) : AckState × List CbEvent :=
  if s.ackPacket.frameNumber = recv.frameNumber then
    let merged := ackPacketSetFlags s.ackPacket recv
    if s.currentFrameCbWasCalled = false ∧
        ackPacketAllFlagsSet merged s.currentFrameNbFragments = true then
      ({ s with ackPacket := merged, currentFrameCbWasCalled := true },
       [⟨CbStatus.frameSent, s.currentFrame.frameBuffer, s.currentFrame.frameSize⟩])
    else
      ({ s with ackPacket := merged }, [])
  else
    (s, [])

/-- The new-frame branch of `ARSTREAM_Sender_RunDataThread` (lines 697–744),
restricted to the fields guarded by `ackMutex`: if the current frame's
terminal callback was not yet called, fire `FRAME_CANCEL` for it; clear the
flag for the new frame; install `next` as the current frame; reset the ack
bitmap and stamp it with the new frame number (`uint16_t` on the ack packet,
hence `% 2^16`); store the new fragment count (`nbFragments`, computed by
`ARSTREAM_Sender_ComputeFragments`). -/
def installNewFrame (s : AckState) (next : Frame) (nbFragments : Nat) :
    AckState × List CbEvent :=
  let evs : List CbEvent :=
    if s.currentFrameCbWasCalled = false then
      [⟨CbStatus.frameCancel, s.currentFrame.frameBuffer, s.currentFrame.frameSize⟩]
    else
      []
  (⟨⟨next.frameNumber % UINT16_MOD, 0, 0⟩, false, nbFragments, next⟩, evs)

/-- One atomic step on the `ackMutex`-protected state: either the ack loop
applies a received packet, or the transmit loop installs a popped frame as
the new current frame.  Both critical sections hold `ackMutex` for their
whole duration in the C code, so every interleaving of the two threads is a
sequence of these steps. -/
inductive SenderEvent where
  | recvAck (p : AckPacket)
  | newFrame (f : Frame) (nbFragments : Nat)

/-- Run a sequence of `ackMutex`-atomic steps.  `cur` counts the terminal
callbacks fired so far for the frame currently installed; whenever a new
frame is installed the retired frame's final count (its callbacks so far plus
the `FRAME_CANCEL` fired at replacement, if any) is appended to the returned
list.  Returns the final state, the live frame's count so far, and the list
of retired frames' terminal-callback counts. -/
def runAckMachine : List SenderEvent → AckState → Nat → AckState × Nat × List Nat
  | [], s, cur => (s, cur, [])
  | SenderEvent.recvAck p :: rest, s, cur =>
    let r := processAck s p
    runAckMachine rest r.1 (cur + r.2.length)
  | SenderEvent.newFrame f nb :: rest, s, cur =>
    let r := installNewFrame s f nb
    let t := runAckMachine rest r.1 0
    (t.1, t.2.1, (cur + r.2.length) :: t.2.2)

/-- `ARSTREAM_Sender_GetEstimatedEfficiency` (lines 846–873), with the two
parallel rings `efficiency_nbFragments` / `efficiency_nbSent` of length
`ARSTREAM_SENDER_EFFICIENCY_AVERAGE_NB_FRAMES = 15` passed as functions from
slot index.  The C float result is modelled as an exact rational. -/
def ARSTREAM_Sender_GetEstimatedEfficiency (effNbFragments effNbSent : Nat → Nat) : ℚ :=
  let totalPackets := (Finset.range 15).sum effNbFragments
  let sentPackets := (Finset.range 15).sum effNbSent
  if sentPackets = 0 then 1
  else if sentPackets < totalPackets then 1
  else (totalPackets : ℚ) / (sentPackets : ℚ)

/-!
## Helper lemmas about the flush loop
-/

/-- Unfolding of one iteration of `flushLoop` on a state with a positive
waiting count. -/
lemma flushLoop_succ_pos (n m nf a g c : Nat) (fr : Nat → Frame) (cb : Bool) :
    flushLoop (n + 1) ⟨m, nf, a, g, c + 1, fr, cb⟩ =
      ((flushLoop n ⟨m, nf, a, (g + 1) % m, c, fr, cb⟩).1,
       ⟨CbStatus.frameCancel, (fr g).frameBuffer, (fr g).frameSize⟩ ::
         (flushLoop n ⟨m, nf, a, (g + 1) % m, c, fr, cb⟩).2) := by
  simp [flushLoop]

/-- `flushLoop` characterised in closed form: with enough fuel and an
in-range head index, it cancels exactly the `c` waiting frames, head first,
and leaves the state with an empty queue and the get index advanced by `c`
modulo the ring size. -/
lemma flushLoop_spec : ∀ (fuel m nf a g c : Nat) (fr : Nat → Frame) (cb : Bool),
    c ≤ fuel → g < m →
    flushLoop fuel ⟨m, nf, a, g, c, fr, cb⟩ =
      (⟨m, nf, a, (g + c) % m, 0, fr, cb⟩,
       (List.range c).map (fun i =>
         ⟨CbStatus.frameCancel, (fr ((g + i) % m)).frameBuffer,
          (fr ((g + i) % m)).frameSize⟩)) := by
  intro fuel
  induction fuel with
  | zero =>
    intro m nf a g c fr cb hle hg
    obtain rfl : c = 0 := Nat.le_zero.mp hle
    simp [flushLoop, Nat.mod_eq_of_lt hg]
  | succ n ih =>
    intro m nf a g c fr cb hle hg
    cases c with
    | zero => simp [flushLoop, Nat.mod_eq_of_lt hg]
    | succ c =>
      have hm : 0 < m := Nat.lt_of_le_of_lt (Nat.zero_le g) hg
      have key := ih m nf a ((g + 1) % m) c fr cb (by omega) (Nat.mod_lt _ hm)
      have hidx : ((g + 1) % m + c) % m = (g + (c + 1)) % m := by
        rw [Nat.mod_add_mod]; congr 1; omega
      have hmap : ∀ i : Nat, ((g + 1) % m + i) % m = (g + (i + 1)) % m := by
        intro i; rw [Nat.mod_add_mod]; congr 1; omega
      rw [flushLoop_succ_pos, key, List.range_succ_eq_map]
      simp only [List.map_cons, List.map_map, Function.comp_def, Nat.succ_eq_add_one, hmap,
        Nat.add_zero, Nat.mod_eq_of_lt hg, hidx]

/-- `flushLoop` never touches the ring size, the frame-number counter, the
add index, the frame storage or the callback flag. -/
lemma flushLoop_preserves : ∀ (fuel : Nat) (s : SenderState),
    (flushLoop fuel s).1.maxNumberOfNextFrames = s.maxNumberOfNextFrames ∧
    (flushLoop fuel s).1.nextFrameNumber = s.nextFrameNumber ∧
    (flushLoop fuel s).1.indexAddNextFrame = s.indexAddNextFrame ∧
    (flushLoop fuel s).1.nextFrames = s.nextFrames ∧
    (flushLoop fuel s).1.currentFrameCbWasCalled = s.currentFrameCbWasCalled := by
  intro fuel
  induction fuel with
  | zero => intro s; simp [flushLoop]
  | succ n ih =>
    intro s
    by_cases h : 0 < s.numberOfWaitingFrames
    · simp only [flushLoop, if_pos h]
      exact ih _
    · simp [flushLoop, h]

/-- With enough fuel, `flushLoop` empties the queue. -/
lemma flushLoop_count : ∀ (fuel : Nat) (s : SenderState),
    s.numberOfWaitingFrames ≤ fuel →
    (flushLoop fuel s).1.numberOfWaitingFrames = 0 := by
  intro fuel
  induction fuel with
  | zero =>
    intro s h
    simp only [flushLoop]
    omega
  | succ n ih =>
    intro s h
    by_cases hc : 0 < s.numberOfWaitingFrames
    · simp only [flushLoop, if_pos hc]
      exact ih _ (show s.numberOfWaitingFrames - 1 ≤ n by omega)
    · simp only [flushLoop, if_neg hc]
      omega

/-!
## Claims about the frame queue (C2, C5, C9, C10)
-/

/-- **C2.** For every call to enqueue with the flush flag set, every frame
then waiting in the ring receives exactly one `FRAME_CANCEL` callback, in
FIFO order starting at the get index; afterwards the waiting count is `0`
and the get index equals the add index (given the ring invariant relating
the two indices and the count); the flush's callbacks are exactly the events
emitted by the enqueue, and the new frame's descriptor is written on top of
the flushed (emptied) state, so afterwards the queue holds only the newly
added flush frame. -/
theorem claim2_flush_cancels_every_waiting_frame (s : SenderState) (size buf : Nat)
    (hg : s.indexGetNextFrame < s.maxNumberOfNextFrames)
    (hring : s.indexAddNextFrame =
      (s.indexGetNextFrame + s.numberOfWaitingFrames) % s.maxNumberOfNextFrames) :
    (ARSTREAM_Sender_FlushQueue s).2 =
      (List.range s.numberOfWaitingFrames).map (fun i =>
        ⟨CbStatus.frameCancel,
         (s.nextFrames ((s.indexGetNextFrame + i) % s.maxNumberOfNextFrames)).frameBuffer,
         (s.nextFrames ((s.indexGetNextFrame + i) % s.maxNumberOfNextFrames)).frameSize⟩) ∧
    (ARSTREAM_Sender_FlushQueue s).1.numberOfWaitingFrames = 0 ∧
    (ARSTREAM_Sender_FlushQueue s).1.indexGetNextFrame =
      (ARSTREAM_Sender_FlushQueue s).1.indexAddNextFrame ∧
    (ARSTREAM_Sender_AddToQueue s size buf 1).cancelled = (ARSTREAM_Sender_FlushQueue s).2 ∧
    (ARSTREAM_Sender_AddToQueue s size buf 1).state =
      { (ARSTREAM_Sender_FlushQueue s).1 with
        nextFrameNumber := (s.nextFrameNumber + 1) % UINT32_MOD,
        nextFrames := fun i => if i = s.indexAddNextFrame then
            ⟨(s.nextFrameNumber + 1) % UINT32_MOD, size, buf, 1⟩
          else s.nextFrames i,
        indexAddNextFrame := (s.indexAddNextFrame + 1) % s.maxNumberOfNextFrames,
        numberOfWaitingFrames := 1 } := by
  obtain ⟨m, nf, a, g, c, fr, cb⟩ := s
  simp only at hg hring
  have hm : 0 < m := Nat.lt_of_le_of_lt (Nat.zero_le g) hg
  have hfl : ARSTREAM_Sender_FlushQueue ⟨m, nf, a, g, c, fr, cb⟩ =
      (⟨m, nf, a, (g + c) % m, 0, fr, cb⟩,
       (List.range c).map (fun i =>
         ⟨CbStatus.frameCancel, (fr ((g + i) % m)).frameBuffer,
          (fr ((g + i) % m)).frameSize⟩)) :=
    flushLoop_spec c m nf a g c fr cb le_rfl hg
  refine ⟨by rw [hfl], by rw [hfl], ?_, ?_, ?_⟩
  · rw [hfl, hring]
  · simp only [ARSTREAM_Sender_AddToQueue, if_pos rfl, hfl]
    simp [hm]
  · simp only [ARSTREAM_Sender_AddToQueue, if_pos rfl, hfl]
    simp [hm, hring]

/-- **C2 witness.** A concrete two-frame queue: the flush-flagged enqueue
cancels both waiting frames in FIFO order. -/
theorem claim2_witness :
    (ARSTREAM_Sender_AddToQueue
        ⟨3, 10, 2, 0, 2,
         (fun i => if i = 0 then ⟨9, 100, 41, 0⟩ else if i = 1 then ⟨10, 200, 42, 0⟩
           else ⟨0, 0, 0, 0⟩), false⟩ 300 43 1).cancelled =
      [⟨CbStatus.frameCancel, 41, 100⟩, ⟨CbStatus.frameCancel, 42, 200⟩] := by
  have h := claim2_flush_cancels_every_waiting_frame
    ⟨3, 10, 2, 0, 2,
     (fun i => if i = 0 then ⟨9, 100, 41, 0⟩ else if i = 1 then ⟨10, 200, 42, 0⟩
       else ⟨0, 0, 0, 0⟩), false⟩ 300 43 (by decide) (by decide)
  rw [h.2.2.2.1, h.1]
  decide

/-- **C5.** For every call to enqueue: the value computed before any flush is
the pre-call waiting count plus one exactly when the current frame's
terminal callback has not yet been called; on the success path (post-flush
count below capacity) that value is returned, `nextFrameNumber` is
incremented (modulo `2^32`), the descriptor is written at the add index,
the add index advances modulo the capacity, the count increments, and the
condition variable is signalled; when the post-flush count equals the
capacity the call returns `-1`, signals nothing and changes nothing else. -/
theorem claim5_enqueue_returns_backlog_depth (s : SenderState) (size buf : Nat)
    (wasFlushFrame : Int) :
    ((if wasFlushFrame = 1 then (ARSTREAM_Sender_FlushQueue s).1 else s).numberOfWaitingFrames <
        (if wasFlushFrame = 1 then (ARSTREAM_Sender_FlushQueue s).1 else s).maxNumberOfNextFrames →
      (ARSTREAM_Sender_AddToQueue s size buf wasFlushFrame).retVal =
          (s.numberOfWaitingFrames : Int) +
            (if s.currentFrameCbWasCalled then 0 else 1) ∧
      (ARSTREAM_Sender_AddToQueue s size buf wasFlushFrame).state.nextFrameNumber =
          (s.nextFrameNumber + 1) % UINT32_MOD ∧
      (ARSTREAM_Sender_AddToQueue s size buf wasFlushFrame).state.nextFrames
          s.indexAddNextFrame =
          ⟨(s.nextFrameNumber + 1) % UINT32_MOD, size, buf, wasFlushFrame⟩ ∧
      (ARSTREAM_Sender_AddToQueue s size buf wasFlushFrame).state.indexAddNextFrame =
          (s.indexAddNextFrame + 1) % s.maxNumberOfNextFrames ∧
      (ARSTREAM_Sender_AddToQueue s size buf wasFlushFrame).state.numberOfWaitingFrames =
          (if wasFlushFrame = 1 then (ARSTREAM_Sender_FlushQueue s).1 else s).numberOfWaitingFrames
            + 1 ∧
      (ARSTREAM_Sender_AddToQueue s size buf wasFlushFrame).signaled = true) ∧
    ((if wasFlushFrame = 1 then (ARSTREAM_Sender_FlushQueue s).1 else s).numberOfWaitingFrames =
        (if wasFlushFrame = 1 then (ARSTREAM_Sender_FlushQueue s).1 else s).maxNumberOfNextFrames →
      (ARSTREAM_Sender_AddToQueue s size buf wasFlushFrame).retVal = -1 ∧
      (ARSTREAM_Sender_AddToQueue s size buf wasFlushFrame).signaled = false ∧
      (ARSTREAM_Sender_AddToQueue s size buf wasFlushFrame).state =
        (if wasFlushFrame = 1 then (ARSTREAM_Sender_FlushQueue s).1 else s)) := by
  by_cases hf : wasFlushFrame = 1
  · subst hf
    obtain ⟨hmax, hnf, hadd, hfr, hcb⟩ :=
      flushLoop_preserves s.numberOfWaitingFrames s
    simp only [reduceIte, ARSTREAM_Sender_AddToQueue, ARSTREAM_Sender_FlushQueue] at *
    constructor
    · intro hlt
      simp only [if_pos hlt]
      simp [hnf, hadd, hmax]
    · intro heq
      simp only [if_neg (show ¬ (flushLoop s.numberOfWaitingFrames s).1.numberOfWaitingFrames <
        (flushLoop s.numberOfWaitingFrames s).1.maxNumberOfNextFrames by omega)]
      and_intros <;> trivial
  · simp only [if_neg hf, ARSTREAM_Sender_AddToQueue]
    constructor
    · intro hlt
      simp only [if_pos hlt]
      simp
    · intro heq
      simp only [if_neg (show ¬ s.numberOfWaitingFrames < s.maxNumberOfNextFrames by omega)]
      and_intros <;> trivial

/-- **C5 witness.** A concrete enqueue into a queue with one waiting frame
and an in-flight current frame returns backlog depth `2`. -/
theorem claim5_witness :
    (ARSTREAM_Sender_AddToQueue
        ⟨4, 7, 1, 0, 1, (fun _ => ⟨0, 0, 0, 0⟩), false⟩ 50 11 0).retVal = 2 := by
  have h := (claim5_enqueue_returns_backlog_depth
    ⟨4, 7, 1, 0, 1, (fun _ => ⟨0, 0, 0, 0⟩), false⟩ 50 11 0).1 (by decide)
  rw [h.1]
  decide

/-- **C9 counterexample.** The frame-number counter is a C `uint32_t`:
starting from `nextFrameNumber = 65535`, an accepted submission stamps the
new frame with `65536`, whereas arithmetic modulo `2^16` (as the claim
states) would stamp `(65535 + 1) % 2^16 = 0`. -/
theorem claim9_counterexample :
    ((ARSTREAM_Sender_AddToQueue
        ⟨1, 65535, 0, 0, 0, (fun _ => ⟨0, 0, 0, 0⟩), true⟩ 100 7 0).state.nextFrames 0).frameNumber
      = 65536 ∧
    (65536 : Nat) ≠ (65535 + 1) % UINT16_MOD := by
  constructor
  · rfl
  · decide

/-- **C9 (amended).** Frame numbers stamped at enqueue time are strictly
increasing across accepted submissions with arithmetic performed modulo
`2^32` (the sender's `nextFrameNumber` is a 32-bit counter; only the on-wire
headers truncate it to 16 bits): a successful enqueue stamps
`(nextFrameNumber + 1) % 2^32`, which strictly exceeds the previous counter
value whenever no 32-bit wrap occurs. -/
theorem claim9_frame_numbers_mod_2_32 (s : SenderState) (size buf : Nat)
    (h : s.numberOfWaitingFrames < s.maxNumberOfNextFrames) :
    ((ARSTREAM_Sender_AddToQueue s size buf 0).state.nextFrames
        s.indexAddNextFrame).frameNumber = (s.nextFrameNumber + 1) % UINT32_MOD ∧
    (ARSTREAM_Sender_AddToQueue s size buf 0).state.nextFrameNumber =
      (s.nextFrameNumber + 1) % UINT32_MOD ∧
    (s.nextFrameNumber + 1 < UINT32_MOD →
      s.nextFrameNumber <
        ((ARSTREAM_Sender_AddToQueue s size buf 0).state.nextFrames
          s.indexAddNextFrame).frameNumber) := by
  have h0 : (0 : Int) ≠ 1 := by decide
  simp only [ARSTREAM_Sender_AddToQueue, if_neg h0, if_pos h]
  refine ⟨by simp, by trivial, ?_⟩
  intro hw
  simp [Nat.mod_eq_of_lt hw]

/-- **C9 witness.** A concrete accepted submission stamps frame number `8`
when the counter stood at `7`. -/
theorem claim9_witness :
    (7 : Nat) <
      ((ARSTREAM_Sender_AddToQueue
          ⟨2, 7, 0, 0, 0, (fun _ => ⟨0, 0, 0, 0⟩), false⟩ 10 3 0).state.nextFrames 0).frameNumber :=
  (claim9_frame_numbers_mod_2_32
      ⟨2, 7, 0, 0, 0, (fun _ => ⟨0, 0, 0, 0⟩), false⟩ 10 3 (by decide)).2.2 (by decide)

/-- **C10.** A flush-flagged enqueue on a sender whose queue capacity is at
least `1` never reports a full queue: the flush empties the ring before the
capacity test, so the insertion succeeds and the returned value is
non-negative. -/
theorem claim10_flush_enqueue_never_full (s : SenderState) (size buf : Nat)
    (h : 1 ≤ s.maxNumberOfNextFrames) :
    (ARSTREAM_Sender_AddToQueue s size buf 1).retVal ≠ -1 ∧
    0 ≤ (ARSTREAM_Sender_AddToQueue s size buf 1).retVal := by
  have hc : (flushLoop s.numberOfWaitingFrames s).1.numberOfWaitingFrames = 0 :=
    flushLoop_count s.numberOfWaitingFrames s le_rfl
  have hm : (flushLoop s.numberOfWaitingFrames s).1.maxNumberOfNextFrames =
      s.maxNumberOfNextFrames :=
    (flushLoop_preserves s.numberOfWaitingFrames s).1
  have hlt : (flushLoop s.numberOfWaitingFrames s).1.numberOfWaitingFrames <
      (flushLoop s.numberOfWaitingFrames s).1.maxNumberOfNextFrames := by omega
  simp only [ARSTREAM_Sender_AddToQueue, ARSTREAM_Sender_FlushQueue, reduceIte, if_pos hlt]
  by_cases hcb : s.currentFrameCbWasCalled <;> simp [hcb]
  omega

/-- **C10 witness.** A concrete flush-flagged enqueue into a completely full
one-slot queue still succeeds. -/
theorem claim10_witness :
    (ARSTREAM_Sender_AddToQueue
        ⟨1, 0, 0, 0, 1, (fun _ => ⟨5, 20, 9, 0⟩), false⟩ 30 4 1).retVal ≠ -1 :=
  (claim10_flush_enqueue_never_full
      ⟨1, 0, 0, 0, 1, (fun _ => ⟨5, 20, 9, 0⟩), false⟩ 30 4 (by decide)).1

/-!
## Claim C3: the fragmentation law
-/

/-- The per-fragment size rule, spelled out: every fragment but the last is a
full `fragmentSize`, the last gets `lastFragmentSize`. -/
lemma currFragmentSize_cases (nbPackets lastFragmentSize fragmentSize : Nat) :
    (∀ cnt, cnt < nbPackets - 1 →
      currFragmentSize cnt nbPackets lastFragmentSize fragmentSize = fragmentSize) ∧
    currFragmentSize (nbPackets - 1) nbPackets lastFragmentSize fragmentSize =
      lastFragmentSize := by
  constructor
  · intro cnt hcnt
    simp [currFragmentSize, Nat.ne_of_lt hcnt]
  · simp [currFragmentSize]

/-- **C3.** For every frame of size `S` with `0 < S ≤ 128·FRAGMENT_SIZE`, the
transmit loop computes `nbPackets = ⌈S / FRAGMENT_SIZE⌉`; the last fragment's
payload is `S mod FRAGMENT_SIZE` (or a full `FRAGMENT_SIZE` when the size is
evenly divisible), equivalently `S − (nbPackets − 1)·FRAGMENT_SIZE`; every
other fragment's payload is a full `FRAGMENT_SIZE`. -/
theorem claim3_fragmentation_law (prevNb prevLast sendSize fragmentSize : Nat)
    (hS : 0 < sendSize) (hf : 0 < fragmentSize)
    (hcap : sendSize ≤ 128 * fragmentSize) :
    ((ARSTREAM_Sender_ComputeFragments prevNb prevLast sendSize fragmentSize).1 =
        (sendSize + fragmentSize - 1) / fragmentSize) ∧
    ((ARSTREAM_Sender_ComputeFragments prevNb prevLast sendSize fragmentSize).2 =
        if sendSize % fragmentSize = 0 then fragmentSize else sendSize % fragmentSize) ∧
    ((ARSTREAM_Sender_ComputeFragments prevNb prevLast sendSize fragmentSize).2 =
        sendSize -
          ((ARSTREAM_Sender_ComputeFragments prevNb prevLast sendSize fragmentSize).1 - 1) *
            fragmentSize) ∧
    (∀ cnt,
        cnt < (ARSTREAM_Sender_ComputeFragments prevNb prevLast sendSize fragmentSize).1 - 1 →
        currFragmentSize cnt
          (ARSTREAM_Sender_ComputeFragments prevNb prevLast sendSize fragmentSize).1
          (ARSTREAM_Sender_ComputeFragments prevNb prevLast sendSize fragmentSize).2
          fragmentSize = fragmentSize) ∧
    (currFragmentSize
        ((ARSTREAM_Sender_ComputeFragments prevNb prevLast sendSize fragmentSize).1 - 1)
        (ARSTREAM_Sender_ComputeFragments prevNb prevLast sendSize fragmentSize).1
        (ARSTREAM_Sender_ComputeFragments prevNb prevLast sendSize fragmentSize).2
        fragmentSize =
      (ARSTREAM_Sender_ComputeFragments prevNb prevLast sendSize fragmentSize).2) := by
  have h128 : 128 * fragmentSize / fragmentSize = 128 := by
    rw [Nat.mul_comm]
    exact Nat.mul_div_cancel_left 128 hf
  have hq : sendSize / fragmentSize ≤ 128 := h128 ▸ Nat.div_le_div_right hcap
  have hqr := Nat.div_add_mod sendSize fragmentSize
  have hr : sendSize % fragmentSize < fragmentSize := Nat.mod_lt _ hf
  by_cases h0 : sendSize % fragmentSize = 0
  · have hfS : fragmentSize ≤ sendSize :=
      Nat.le_of_dvd hS (Nat.dvd_of_mod_eq_zero h0)
    have hcf : ARSTREAM_Sender_ComputeFragments prevNb prevLast sendSize fragmentSize =
        (sendSize / fragmentSize, fragmentSize) := by
      have h65 : sendSize / fragmentSize < 65536 := by omega
      simp [ARSTREAM_Sender_ComputeFragments, hS, h0, UINT16_MOD, Nat.mod_eq_of_lt h65]
    have hceil : sendSize / fragmentSize = (sendSize + fragmentSize - 1) / fragmentSize := by
      have key : sendSize + fragmentSize - 1 =
          fragmentSize * (sendSize / fragmentSize) + (fragmentSize - 1) := by omega
      rw [key, Nat.mul_add_div hf,
        Nat.div_eq_of_lt (show fragmentSize - 1 < fragmentSize by omega), Nat.add_zero]
    have hlast : fragmentSize =
        sendSize - (sendSize / fragmentSize - 1) * fragmentSize := by
      have hsub : (sendSize / fragmentSize - 1) * fragmentSize =
          fragmentSize * (sendSize / fragmentSize) - fragmentSize := by
        rw [Nat.sub_mul, Nat.one_mul, Nat.mul_comm]
      rw [hsub]
      omega
    refine ⟨by rw [hcf]; exact hceil, by rw [hcf]; simp [h0], by rw [hcf]; exact hlast, ?_, ?_⟩
    · exact (currFragmentSize_cases _ _ _).1
    · exact (currFragmentSize_cases _ _ _).2
  · have hr1 : 1 ≤ sendSize % fragmentSize := Nat.one_le_iff_ne_zero.mpr h0
    have hcf : ARSTREAM_Sender_ComputeFragments prevNb prevLast sendSize fragmentSize =
        (sendSize / fragmentSize + 1, sendSize % fragmentSize) := by
      have h65a : sendSize / fragmentSize < 65536 := by omega
      have h65b : sendSize / fragmentSize + 1 < 65536 := by omega
      simp [ARSTREAM_Sender_ComputeFragments, hS, h0, UINT16_MOD,
        Nat.mod_eq_of_lt h65a, Nat.mod_eq_of_lt h65b]
    have hceil : sendSize / fragmentSize + 1 =
        (sendSize + fragmentSize - 1) / fragmentSize := by
      have hmul : fragmentSize * (sendSize / fragmentSize + 1) =
          fragmentSize * (sendSize / fragmentSize) + fragmentSize := by ring
      have key : sendSize + fragmentSize - 1 =
          fragmentSize * (sendSize / fragmentSize + 1) +
            (sendSize % fragmentSize - 1) := by omega
      rw [key, Nat.mul_add_div hf,
        Nat.div_eq_of_lt (show sendSize % fragmentSize - 1 < fragmentSize by omega),
        Nat.add_zero]
    have hlast : sendSize % fragmentSize =
        sendSize - (sendSize / fragmentSize + 1 - 1) * fragmentSize := by
      have hc : (sendSize / fragmentSize) * fragmentSize =
          fragmentSize * (sendSize / fragmentSize) := Nat.mul_comm _ _
      rw [Nat.add_sub_cancel, hc]
      omega
    refine ⟨by rw [hcf]; exact hceil, by rw [hcf]; simp [h0], by rw [hcf]; exact hlast, ?_, ?_⟩
    · exact (currFragmentSize_cases _ _ _).1
    · exact (currFragmentSize_cases _ _ _).2

/-- **C3 witness.** A 2500-byte frame with 1000-byte fragments is cut into
`⌈2500/1000⌉ = 3` fragments. -/
theorem claim3_witness :
    (ARSTREAM_Sender_ComputeFragments 0 0 2500 1000).1 = (2500 + 1000 - 1) / 1000 ∧
    (ARSTREAM_Sender_ComputeFragments 0 0 2500 1000).2 =
      (if 2500 % 1000 = 0 then 1000 else 2500 % 1000) :=
  ⟨(claim3_fragmentation_law 0 0 2500 1000 (by decide) (by decide) (by decide)).1,
   (claim3_fragmentation_law 0 0 2500 1000 (by decide) (by decide) (by decide)).2.1⟩

/-!
## Claim C4: submission validation and error mapping
-/

/-- `ARSTREAM_Sender_AddToQueue` never returns anything below `-1`. -/
lemma addToQueue_retVal_ge (s : SenderState) (size buf : Nat) (wf : Int) :
    -1 ≤ (ARSTREAM_Sender_AddToQueue s size buf wf).retVal := by
  have h : ∀ (c : Nat) (b : Bool), (-1 : Int) ≤ (c : Int) + (if b = true then (0 : Int) else 1) := by
    intro c b
    have hc : (0 : Int) ≤ (c : Int) := Int.natCast_nonneg c
    cases b <;> simp <;> omega
  simp only [ARSTREAM_Sender_AddToQueue]
  split <;> split <;> simp [h]

/-- **C4.** `ARSTREAM_Sender_SendNewFrame` returns `BAD_PARAMETERS` for a null
sender, a null buffer, a zero size, or a flush flag outside `{0, 1}`, and
`FRAME_TOO_LARGE` for a size above `MAX_FRAME_SIZE`; in both error cases the
sender state is untouched, nothing is written through `nbPreviousFrames` and
no callback fires (the enqueue is never attempted).  Otherwise it enqueues,
returns `QUEUE_FULL` exactly when the enqueue returned `-1`, and on success
writes the backlog depth through `nbPreviousFrames` only when that pointer
is non-null. -/
theorem claim4_submit_validation (maxFrameSize : Nat) (senderNull : Bool)
    (s : SenderState) (frameBuffer frameSize : Nat) (flushPreviousFrames : Int)
    (nbPreviousFramesNull : Bool) :
    ((senderNull = true ∨ frameBuffer = 0 ∨ frameSize = 0 ∨
        (flushPreviousFrames ≠ 0 ∧ flushPreviousFrames ≠ 1)) →
      ARSTREAM_Sender_SendNewFrame maxFrameSize senderNull s frameBuffer frameSize
          flushPreviousFrames nbPreviousFramesNull =
        ⟨ARStreamError.badParameters, s, none, []⟩) ∧
    (¬(senderNull = true ∨ frameBuffer = 0 ∨ frameSize = 0 ∨
        (flushPreviousFrames ≠ 0 ∧ flushPreviousFrames ≠ 1)) →
      maxFrameSize < frameSize →
      ARSTREAM_Sender_SendNewFrame maxFrameSize senderNull s frameBuffer frameSize
          flushPreviousFrames nbPreviousFramesNull =
        ⟨ARStreamError.frameTooLarge, s, none, []⟩) ∧
    (¬(senderNull = true ∨ frameBuffer = 0 ∨ frameSize = 0 ∨
        (flushPreviousFrames ≠ 0 ∧ flushPreviousFrames ≠ 1)) →
      frameSize ≤ maxFrameSize →
      ((ARSTREAM_Sender_SendNewFrame maxFrameSize senderNull s frameBuffer frameSize
          flushPreviousFrames nbPreviousFramesNull).err = ARStreamError.queueFull ↔
        (ARSTREAM_Sender_AddToQueue s frameSize frameBuffer flushPreviousFrames).retVal = -1) ∧
      (ARSTREAM_Sender_SendNewFrame maxFrameSize senderNull s frameBuffer frameSize
          flushPreviousFrames nbPreviousFramesNull).state =
        (ARSTREAM_Sender_AddToQueue s frameSize frameBuffer flushPreviousFrames).state ∧
      ((ARSTREAM_Sender_AddToQueue s frameSize frameBuffer flushPreviousFrames).retVal ≠ -1 →
        (ARSTREAM_Sender_SendNewFrame maxFrameSize senderNull s frameBuffer frameSize
            flushPreviousFrames nbPreviousFramesNull).err = ARStreamError.ok ∧
        (ARSTREAM_Sender_SendNewFrame maxFrameSize senderNull s frameBuffer frameSize
            flushPreviousFrames nbPreviousFramesNull).nbPreviousFramesOut =
          (if nbPreviousFramesNull then none
           else some (ARSTREAM_Sender_AddToQueue s frameSize frameBuffer
              flushPreviousFrames).retVal))) := by
  refine ⟨?_, ?_, ?_⟩
  · intro hbad
    simp [ARSTREAM_Sender_SendNewFrame, hbad]
  · intro hbad hlarge
    simp [ARSTREAM_Sender_SendNewFrame, hbad, hlarge]
  · intro hbad hsize
    have hge := addToQueue_retVal_ge s frameSize frameBuffer flushPreviousFrames
    simp only [ARSTREAM_Sender_SendNewFrame, if_neg hbad,
      if_neg (show ¬ maxFrameSize < frameSize by omega)]
    by_cases hfull :
      (ARSTREAM_Sender_AddToQueue s frameSize frameBuffer flushPreviousFrames).retVal < 0
    · have heq :
          (ARSTREAM_Sender_AddToQueue s frameSize frameBuffer flushPreviousFrames).retVal
            = -1 := by omega
      simp [hfull, heq]
    · have hne :
          (ARSTREAM_Sender_AddToQueue s frameSize frameBuffer flushPreviousFrames).retVal
            ≠ -1 := by omega
      simp only [if_neg hfull]
      by_cases hnp : nbPreviousFramesNull <;> simp [hnp, hne]

/-- **C4 witness.** A valid 10-byte submission into an empty two-slot queue
succeeds and reports the backlog depth through the out pointer. -/
theorem claim4_witness :
    (ARSTREAM_Sender_SendNewFrame 100 false
        ⟨2, 0, 0, 0, 0, (fun _ => ⟨0, 0, 0, 0⟩), true⟩ 5 10 0 false).err = ARStreamError.ok ∧
    (ARSTREAM_Sender_SendNewFrame 100 false
        ⟨2, 0, 0, 0, 0, (fun _ => ⟨0, 0, 0, 0⟩), true⟩ 5 10 0 false).nbPreviousFramesOut =
      (if false then none
       else some (ARSTREAM_Sender_AddToQueue
          ⟨2, 0, 0, 0, 0, (fun _ => ⟨0, 0, 0, 0⟩), true⟩ 10 5 0).retVal) :=
  ((claim4_submit_validation 100 false
      ⟨2, 0, 0, 0, 0, (fun _ => ⟨0, 0, 0, 0⟩), true⟩ 5 10 0 false).2.2
    (by decide) (by decide)).2.2 (by decide)

/-!
## Claim C6: dequeue readiness
-/

/-- When the queue head never becomes ready (no concurrent thread changes the
state across wake-ups), the timed-wait loop ends with the state untouched and
no frame handed out, whether it stops on a timeout or exhausts the wake list. -/
lemma popLoop_not_ready (s : SenderState) (hnr : popReady s = false) :
    ∀ tos : List Bool, popLoop (tos.map fun b => (s, b)) s = (s, none) := by
  intro tos
  induction tos with
  | nil => rfl
  | cons b rest ih =>
    cases b
    · simp only [List.map_cons, popLoop, hnr]
      simpa using ih
    · simp [popLoop, hnr]

/-- **C6.** For every call to dequeue during which no other thread changes the
queue (every wake-up observes the same state), the head frame is consumed and
returned if and only if the queue is non-empty and (the head is high-priority
or the current frame's terminal callback has already been called); otherwise,
however many timed waits occur and however the final one times out, the call
returns no frame and leaves the state — in particular the head frame —
untouched. -/
theorem claim6_dequeue_ready_condition (s : SenderState) (tos : List Bool) :
    ARSTREAM_Sender_PopFromQueue s (tos.map fun b => (s, b)) =
      (if 0 < s.numberOfWaitingFrames ∧
          ((s.nextFrames s.indexGetNextFrame).isHighPriority = 1 ∨
            s.currentFrameCbWasCalled = true) then
        ({ s with
            numberOfWaitingFrames := s.numberOfWaitingFrames - 1,
            indexGetNextFrame := (s.indexGetNextFrame + 1) % s.maxNumberOfNextFrames },
         some (s.nextFrames s.indexGetNextFrame))
      else (s, none)) := by
  have hiff : popReady s = true ↔
      (0 < s.numberOfWaitingFrames ∧
        ((s.nextFrames s.indexGetNextFrame).isHighPriority = 1 ∨
          s.currentFrameCbWasCalled = true)) := by
    simp [popReady]
  by_cases hr : popReady s = true
  · rw [ARSTREAM_Sender_PopFromQueue, if_pos hr, if_pos (hiff.mp hr)]
    rfl
  · have hnr : popReady s = false := by
      cases h : popReady s
      · rfl
      · exact absurd h hr
    rw [ARSTREAM_Sender_PopFromQueue, if_neg hr,
      if_neg (fun hp => hr (hiff.mpr hp)), popLoop_not_ready s hnr tos]

/-- **C6 witness.** A concrete dequeue of a waiting high-priority frame hands
that frame out. -/
theorem claim6_witness :
    (ARSTREAM_Sender_PopFromQueue ⟨2, 5, 1, 0, 1, (fun _ => ⟨1, 10, 3, 1⟩), false⟩
        ([true].map fun b => (⟨2, 5, 1, 0, 1, (fun _ => ⟨1, 10, 3, 1⟩), false⟩, b))).2 =
      some ⟨1, 10, 3, 1⟩ := by
  rw [claim6_dequeue_ready_condition]
  decide

/-!
## Claim C7: ack merging
-/

/-- Merging an ack bitmap by OR never clears a set bit. -/
lemma ackPacketSetFlags_monotone (a b : AckPacket) (i : Nat)
    (h : ackPacketFlagIsSet a i = true) :
    ackPacketFlagIsSet (ackPacketSetFlags a b) i = true := by
  unfold ackPacketFlagIsSet ackPacketSetFlags at *
  by_cases hi : i < 64
  · simp only [if_pos hi, Nat.testBit_lor] at h ⊢
    simp [h]
  · simp only [if_neg hi, Nat.testBit_lor] at h ⊢
    simp [h]

/-- **C7.** One step of the ack loop: an ack packet whose frame number differs
from the current ack bitmap's frame number leaves the whole state unchanged
and fires no callback; when the frame numbers match the received bitmap is
merged by bitwise OR, so within one frame every ack bit only ever transitions
from `0` to `1`; and once the current frame's terminal callback has been
called, no reordered ack can fire it again. -/
theorem claim7_stale_acks_discarded (s : AckState) (recv : AckPacket) :
    (s.ackPacket.frameNumber ≠ recv.frameNumber → processAck s recv = (s, [])) ∧
    (∀ i, ackPacketFlagIsSet s.ackPacket i = true →
      ackPacketFlagIsSet (processAck s recv).1.ackPacket i = true) ∧
    (s.currentFrameCbWasCalled = true → (processAck s recv).2 = []) := by
  refine ⟨?_, ?_, ?_⟩
  · intro hne
    simp [processAck, hne]
  · intro i hi
    by_cases he : s.ackPacket.frameNumber = recv.frameNumber
    · simp only [processAck, if_pos he]
      split
      · exact ackPacketSetFlags_monotone _ _ _ hi
      · exact ackPacketSetFlags_monotone _ _ _ hi
    · simpa [processAck, he] using hi
  · intro hcb
    by_cases he : s.ackPacket.frameNumber = recv.frameNumber
    · simp [processAck, he, hcb]
    · simp [processAck, he]

/-- **C7 witness.** A stale ack (frame 6 against current frame 5) is dropped
without touching the state, and a set bit stays set across a matching merge. -/
theorem claim7_witness :
    processAck ⟨⟨5, 0, 0⟩, false, 2, ⟨5, 10, 3, 0⟩⟩ ⟨6, 0, 3⟩ =
      (⟨⟨5, 0, 0⟩, false, 2, ⟨5, 10, 3, 0⟩⟩, []) ∧
    ackPacketFlagIsSet
      (processAck ⟨⟨5, 0, 1⟩, false, 2, ⟨5, 10, 3, 0⟩⟩ ⟨5, 0, 2⟩).1.ackPacket 0 = true :=
  ⟨(claim7_stale_acks_discarded ⟨⟨5, 0, 0⟩, false, 2, ⟨5, 10, 3, 0⟩⟩ ⟨6, 0, 3⟩).1 (by decide),
   (claim7_stale_acks_discarded ⟨⟨5, 0, 1⟩, false, 2, ⟨5, 10, 3, 0⟩⟩ ⟨5, 0, 2⟩).2.1 0 (by decide)⟩

/-!
## Claim C1: exactly one terminal callback per installed frame
-/

/-- Case analysis on one ack-application step: either it fires no callback and
leaves the one-shot flag unchanged, or the flag was clear, it fires exactly
one callback and sets the flag. -/
lemma processAck_cb_cases (s : AckState) (p : AckPacket) :
    ((processAck s p).1.currentFrameCbWasCalled = s.currentFrameCbWasCalled ∧
      (processAck s p).2.length = 0) ∨
    (s.currentFrameCbWasCalled = false ∧
      (processAck s p).1.currentFrameCbWasCalled = true ∧
      (processAck s p).2.length = 1) := by
  unfold processAck
  by_cases he : s.ackPacket.frameNumber = p.frameNumber
  · simp only [if_pos he]
    split
    · rename_i h
      right
      simpa using h.1
    · left
      simp
  · simp only [if_neg he]
    left
    simp

/-- The one-shot invariant of the `ackMutex`-protected machine: the number of
terminal callbacks fired for the live frame is `0` while
`currentFrameCbWasCalled` is clear and `1` once it is set, and every retired
frame accumulated exactly one terminal callback. -/
lemma runAckMachine_invariant : ∀ (evs : List SenderEvent) (s : AckState) (cur : Nat),
    (s.currentFrameCbWasCalled = false → cur = 0) →
    (s.currentFrameCbWasCalled = true → cur = 1) →
    (∀ n ∈ (runAckMachine evs s cur).2.2, n = 1) ∧
    ((runAckMachine evs s cur).1.currentFrameCbWasCalled = false →
      (runAckMachine evs s cur).2.1 = 0) ∧
    ((runAckMachine evs s cur).1.currentFrameCbWasCalled = true →
      (runAckMachine evs s cur).2.1 = 1) := by
  intro evs
  induction evs with
  | nil =>
    intro s cur h0 h1
    exact ⟨by simp [runAckMachine], h0, h1⟩
  | cons e rest ih =>
    intro s cur h0 h1
    cases e with
    | recvAck p =>
      simp only [runAckMachine]
      rcases processAck_cb_cases s p with ⟨hcb, hlen⟩ | ⟨hf, hcb, hlen⟩
      · refine ih _ _ ?_ ?_
        · intro h'
          rw [hcb] at h'
          rw [hlen, h0 h']
        · intro h'
          rw [hcb] at h'
          rw [hlen, h1 h']
      · refine ih _ _ ?_ ?_
        · intro h'
          rw [hcb] at h'
          exact absurd h' (by simp)
        · intro _
          rw [hlen, h0 hf]
    | newFrame fr nb =>
      simp only [runAckMachine]
      have hrest := ih (installNewFrame s fr nb).1 0 (fun _ => rfl)
        (by intro h; simp [installNewFrame] at h)
      refine ⟨?_, hrest.2.1, hrest.2.2⟩
      intro n hn
      rcases List.mem_cons.mp hn with rfl | hn'
      · cases hcb : s.currentFrameCbWasCalled
        · simp [installNewFrame, hcb, h0 hcb]
        · simp [installNewFrame, hcb, h1 hcb]
      · exact hrest.1 n hn'

/-- **C1.** Starting from a sender whose current frame has not yet received a
terminal callback (as after `ARSTREAM_Sender_New`), run any interleaving of
`ackMutex`-atomic steps — ack applications by the ack loop and frame
replacements by the transmit loop.  Every frame retired from the
current-frame slot received exactly one terminal callback (`FRAME_SENT` from
the ack loop or `FRAME_CANCEL` at replacement), and the live frame has
received at most one; hence no frame ever gets both `FRAME_SENT` and
`FRAME_CANCEL`, nor two of either. -/
theorem claim1_one_terminal_callback_per_frame (ack : AckPacket) (nb : Nat) (f : Frame)
    (evs : List SenderEvent) :
    (∀ n ∈ (runAckMachine evs ⟨ack, false, nb, f⟩ 0).2.2, n = 1) ∧
    (runAckMachine evs ⟨ack, false, nb, f⟩ 0).2.1 ≤ 1 := by
  have h := runAckMachine_invariant evs ⟨ack, false, nb, f⟩ 0 (fun _ => rfl)
    (by intro hx; exact absurd hx (by simp))
  refine ⟨h.1, ?_⟩
  cases hcb : (runAckMachine evs ⟨ack, false, nb, f⟩ 0).1.currentFrameCbWasCalled
  · rw [h.2.1 hcb]
    omega
  · rw [h.2.2 hcb]

/-- **C1 witness.** A concrete run — an ack completing the current frame,
then a replacement installing a new frame — fires at most one terminal
callback for the live frame. -/
theorem claim1_witness :
    (runAckMachine [SenderEvent.recvAck ⟨0, 0, 1⟩, SenderEvent.newFrame ⟨1, 10, 2, 0⟩ 1]
        ⟨⟨0, 0, 0⟩, false, 1, ⟨0, 5, 9, 0⟩⟩ 0).2.1 ≤ 1 :=
  (claim1_one_terminal_callback_per_frame ⟨0, 0, 0⟩ 1 ⟨0, 5, 9, 0⟩
    [SenderEvent.recvAck ⟨0, 0, 1⟩, SenderEvent.newFrame ⟨1, 10, 2, 0⟩ 1]).2

/-!
## Claim C8: the efficiency metric
-/

/-- **C8 counterexample.** The claim's range assertion does not hold for every
sender state: a ring whose fragment counts are all zero while one slot has a
positive send count yields `sent = 1 ≠ 0`, `total = 0 ≤ sent`, so the
function returns `0/1 = 0`, which is not in `(0, 1]`. -/
theorem claim8_counterexample :
    ARSTREAM_Sender_GetEstimatedEfficiency (fun _ => 0)
        (fun i => if i = 0 then 1 else 0) = 0 ∧
    ¬ (0 < ARSTREAM_Sender_GetEstimatedEfficiency (fun _ => 0)
        (fun i => if i = 0 then 1 else 0)) := by
  have h : ARSTREAM_Sender_GetEstimatedEfficiency (fun _ => 0)
      (fun i => if i = 0 then 1 else 0) = 0 := by
    norm_num [ARSTREAM_Sender_GetEstimatedEfficiency, Finset.sum_range_succ]
  exact ⟨h, by rw [h]; exact lt_irrefl 0⟩

/-- **C8 (amended).** `ARSTREAM_Sender_GetEstimatedEfficiency` sums the
fragment and send counters over the 15-slot ring, returns `1` when nothing
was sent, returns `1` (the logged-error branch) when the fragment total
exceeds the send total, and returns `total / sent` otherwise; the returned
value lies in `(0, 1]` for every ring the sender itself can produce — i.e.
whenever a zero fragment total implies a zero send total (each recorded send
belonged to a frame with at least one fragment). -/
theorem claim8_efficiency_in_unit_interval (effF effS : Nat → Nat)
    (hinv : (Finset.range 15).sum effF = 0 → (Finset.range 15).sum effS = 0) :
    ((Finset.range 15).sum effS = 0 →
      ARSTREAM_Sender_GetEstimatedEfficiency effF effS = 1) ∧
    ((Finset.range 15).sum effS < (Finset.range 15).sum effF →
      ARSTREAM_Sender_GetEstimatedEfficiency effF effS = 1) ∧
    (¬ (Finset.range 15).sum effS = 0 →
      ¬ (Finset.range 15).sum effS < (Finset.range 15).sum effF →
      ARSTREAM_Sender_GetEstimatedEfficiency effF effS =
        (((Finset.range 15).sum effF : ℕ) : ℚ) / (((Finset.range 15).sum effS : ℕ) : ℚ)) ∧
    (0 < ARSTREAM_Sender_GetEstimatedEfficiency effF effS ∧
      ARSTREAM_Sender_GetEstimatedEfficiency effF effS ≤ 1) := by
  refine ⟨?_, ?_, ?_, ?_⟩
  · intro h
    simp [ARSTREAM_Sender_GetEstimatedEfficiency, h]
  · intro h
    by_cases h0 : (Finset.range 15).sum effS = 0
    · simp [ARSTREAM_Sender_GetEstimatedEfficiency, h0]
    · simp [ARSTREAM_Sender_GetEstimatedEfficiency, h0, h]
  · intro h0 hlt
    simp [ARSTREAM_Sender_GetEstimatedEfficiency, h0, hlt]
  · by_cases h0 : (Finset.range 15).sum effS = 0
    · simp [ARSTREAM_Sender_GetEstimatedEfficiency, h0]
    · by_cases hlt : (Finset.range 15).sum effS < (Finset.range 15).sum effF
      · simp [ARSTREAM_Sender_GetEstimatedEfficiency, h0, hlt]
      · have hS : 0 < (Finset.range 15).sum effS := Nat.pos_of_ne_zero h0
        have hT : 0 < (Finset.range 15).sum effF :=
          Nat.pos_of_ne_zero (fun hz => h0 (hinv hz))
        have hTS : (Finset.range 15).sum effF ≤ (Finset.range 15).sum effS :=
          Nat.le_of_not_lt hlt
        have hSQ : (0 : ℚ) < (((Finset.range 15).sum effS : ℕ) : ℚ) := by exact_mod_cast hS
        have hTQ : (0 : ℚ) < (((Finset.range 15).sum effF : ℕ) : ℚ) := by exact_mod_cast hT
        simp only [ARSTREAM_Sender_GetEstimatedEfficiency, if_neg h0, if_neg hlt]
        constructor
        · exact div_pos hTQ hSQ
        · rw [div_le_one hSQ]
          exact_mod_cast hTS

/-- **C8 witness.** A ring recording one 3-fragment frame that took 5 sends
yields an efficiency strictly between 0 and 1. -/
theorem claim8_witness :
    0 < ARSTREAM_Sender_GetEstimatedEfficiency (fun i => if i = 0 then 3 else 0)
        (fun i => if i = 0 then 5 else 0) ∧
    ARSTREAM_Sender_GetEstimatedEfficiency (fun i => if i = 0 then 3 else 0)
        (fun i => if i = 0 then 5 else 0) ≤ 1 :=
  (claim8_efficiency_in_unit_interval (fun i => if i = 0 then 3 else 0)
    (fun i => if i = 0 then 5 else 0) (by decide)).2.2.2

end ARStream
